import Mathlib

/-!
Formal model of `synthesis/synthesizers/_base.py`: the abstract base class
`BaseDPSynthesizer` (epsilon validation, input normalization, fitted-state
check, Jensen-Shannon scoring) and the `FixedSamplingMixin` fixed-data
validation.  Python runtime values are embedded shallowly: numeric values
become an inductive over rationals plus the IEEE specials, dataframes become
association lists from column labels to cell lists, and raising becomes an
`Except` result.
-/

/-- A `numbers.Real` value as Python sees it: a finite real (rationals cover
every float and every int, the arbitrary-precision ints beyond double range
included), positive or negative infinity, or NaN.  Comparisons follow IEEE
semantics: NaN is incomparable and unequal to everything, including
itself. -/
inductive PyFloat where
  | fin (q : ℚ)
  | inf
  | negInf
  | nan
deriving DecidableEq, Repr

/-- Python `<` on numeric values (IEEE ordering; any comparison with NaN is
false). -/
def PyFloat.lt : PyFloat → PyFloat → Bool
  | .nan, _ => false
  | _, .nan => false
  | .fin a, .fin b => decide (a < b)
  | .fin _, .inf => true
  | .fin _, .negInf => false
  | .inf, _ => false
  | .negInf, .negInf => false
  | .negInf, _ => true

/-- Python `==` on numeric values (NaN is unequal to everything, itself
included). -/
def PyFloat.eqv : PyFloat → PyFloat → Bool
  | .nan, _ => false
  | _, .nan => false
  | .fin a, .fin b => decide (a = b)
  | .inf, .inf => true
  | .negInf, .negInf => true
  | _, _ => false

/-- Whether a numeric value is finite. -/
def PyFloat.isFinite : PyFloat → Bool
  | .fin _ => true
  | _ => false

/-- Whether Python `float(x)` raises OverflowError on this value: exactly the
finite values whose magnitude reaches `2^1024 - 2^970`, the overflow boundary
of round-to-nearest double conversion.  Such a value cannot itself be a float
(doubles top out at `2^1024 - 2^971`), so it is an int or Fraction, and its
conversion rounds out of double range and raises.  Every finite value below
the boundary converts, and `float()` of an infinity or NaN succeeds. -/
def PyFloat.floatOverflows : PyFloat → Bool
  | .fin q => decide ((2 : ℚ) ^ 1024 - 2 ^ 970 ≤ |q|)
  | _ => false

/-- A Python value passed as the `epsilon` argument: either an instance of
`numbers.Real` (ints, floats, bools all compare numerically) or anything
else (a string, None, a complex number, ...), carrying only a description. -/
inductive PyVal where
  | real (x : PyFloat)
  | nonreal (descr : String)
deriving DecidableEq, Repr

/-- The exception kinds raised by the code under study. -/
inductive PyError where
  | typeError (msg : String)
  | valueError (msg : String)
  | assertionError (msg : String)
  | notFittedError (msg : String)
  | overflowError (msg : String)
deriving DecidableEq, Repr

/-- `BaseDPSynthesizer._check_epsilon`: `TypeError` if `epsilon` is not a
`numbers.Real`, `ValueError` if `epsilon < 0`, `ValueError` if
`epsilon == 0`; then the trailing `float(self.epsilon)` runs, raising
OverflowError on a value past the double conversion boundary (a huge int)
and returning normally otherwise. -/
def check_epsilon (epsilon : PyVal) : Except PyError Unit :=
  match epsilon with
  | .nonreal _ => .error (.typeError "Epsilon must be numeric")
  | .real x =>
    if x.lt (.fin 0) then .error (.valueError "Epsilon must be non-negative")
    else if x.eqv (.fin 0) then .error (.valueError "Epsilon cannot be zero")
    else if x.floatOverflows then
      .error (.overflowError "int too large to convert to float")
    else .ok ()

/-- A cell of a dataframe column: a scalar value (modelled by its string
form; the scoring claims never depend on the scalar's runtime type, only on
equality between cells) or a missing value.  `value_counts(dropna=False)`
and pandas index alignment both treat NaN as a category equal to itself. -/
inductive Cell where
  | val (s : String)
  | na
deriving DecidableEq, Repr

/-- A pandas DataFrame, column-wise: ordered association list from column
label to the column's cells.  Labels are assumed pairwise distinct where a
theorem needs it (pandas `df[c]` only denotes a single Series then). -/
structure DataFrame where
  cols : List (String × List Cell)
deriving DecidableEq, Repr

/-- `df.columns`, in order. -/
def DataFrame.columns (df : DataFrame) : List String :=
  df.cols.map Prod.fst

/-- `df[c]`: the cells of the first column labelled `c` (empty if absent;
under the claims' hypotheses `c` is always present). -/
def DataFrame.col (df : DataFrame) (c : String) : List Cell :=
  ((df.cols.find? (fun p => decide (p.1 = c))).map Prod.snd).getD []

/-- The fitted model artifact `model_`, as far as `_check_fixed_data` reads
it: `model_.index.get_level_values(c)` yields the level values recorded for
column `c`. -/
structure Model where
  levels : String → List Cell

/-- A concrete synthesizer instance (a `BaseDPSynthesizer` subclass):
`className` is `type(self).__name__`; `model_` is `some` exactly when the
instance carries the `model_` attribute that marks it fitted. -/
structure Synthesizer where
  className : String
  epsilon : PyVal
  verbose : Bool
  columns_ : List String
  n_records_fit_ : ℕ
  model_ : Option Model

/-- `BaseDPSynthesizer._check_init_args`: delegates to `_check_epsilon`. -/
def check_init_args (self : Synthesizer) : Except PyError Unit :=
  check_epsilon self.epsilon

/-- A raw column label of the input dataset before normalization: a string
or an integer (pandas also allows other hashables; string and int cover the
behaviours the claims quantify over). -/
inductive RawLabel where
  | str (s : String)
  | int (n : Int)
deriving DecidableEq, Repr

/-- `str(label)`, as `columns.astype(str)` computes it. -/
def RawLabel.toStr : RawLabel → String
  | .str s => s
  | .int n => toString n

/-- A raw cell of the input dataset before `astype(str)`. -/
inductive RawCell where
  | vstr (s : String)
  | vint (n : Int)
  | vna
deriving DecidableEq, Repr

/-- `astype(str)` on one cell; pandas stringifies NaN to the literal string
"nan". -/
def RawCell.pyStr : RawCell → String
  | .vstr s => s
  | .vint n => toString n
  | .vna => "nan"

/-- The tabular input to `fit`, row-wise: column labels plus the rows.
`pd.DataFrame(data).shape[0]` is the number of rows. -/
structure RawData where
  labels : List RawLabel
  rows : List (List RawCell)
deriving DecidableEq, Repr

/-- The normalized frame produced by `_check_input_data`: every cell a
string, every column label a string. -/
structure StrFrame where
  columns : List String
  rows : List (List String)
deriving DecidableEq, Repr

/-- `BaseDPSynthesizer._check_input_data`: builds
`pd.DataFrame(data).astype(str)`, casts the column labels to strings,
stores `columns_` and `n_records_fit_` on the instance, and returns the
normalized frame. -/
def check_input_data (self : Synthesizer) (data : RawData) : Synthesizer × StrFrame :=
  let df : StrFrame :=
    ⟨data.labels.map RawLabel.toStr, data.rows.map (fun r => r.map RawCell.pyStr)⟩
  (⟨self.className, self.epsilon, self.verbose, df.columns, df.rows.length, self.model_⟩, df)

/-- The `NotFittedError` message with the type name interpolated for
`%(name)s` (the single quotes the source puts around the word fit are elided
from the string literal; no claim depends on them). -/
def notFittedMessage (name : String) : String :=
  "This " ++ name ++ " instance is not fitted yet. Call " ++
    "fit with appropriate arguments before using this synthesizer."

/-- `BaseDPSynthesizer._check_is_fitted`: raises `NotFittedError` naming the
concrete type when the instance has no `model_` attribute. -/
def check_is_fitted (self : Synthesizer) : Except PyError Unit :=
  match self.model_ with
  | none => .error (.notFittedError (notFittedMessage self.className))
  | some _ => .ok ()

/-- `scipy.special.rel_entr` on the nonnegative inputs the scoring code
produces: `x * log (x / y)` when `0 < x`, and `0` when `x = 0` (the
`y = 0 < x` infinity case cannot arise: the second argument is always the
midpoint `(x + q) / 2`, positive whenever `x` is). -/
noncomputable def rel_entr (x y : ℝ) : ℝ :=
  if 0 < x then x * Real.log (x / y) else 0

/-- `scipy.spatial.distance.jensenshannon` with the default base: normalize
both vectors to unit sum, form the midpoint distribution, and take the
square root of half the sum of the two relative entropies. -/
noncomputable def jensenshannon (p q : List ℝ) : ℝ :=
  let pn := p.map (fun x => x / p.sum)
  let qn := q.map (fun x => x / q.sum)
  let m := List.zipWith (fun a b => (a + b) / 2) pn qn
  Real.sqrt (((List.zipWith rel_entr pn m).sum + (List.zipWith rel_entr qn m).sum) / 2)

/-- `Series.value_counts(dropna=False)`: one entry per distinct cell (NaN
included as its own category) with its multiplicity.  pandas orders the
entries by descending count; the order is irrelevant here because index
alignment reorders both vectors jointly and the distance is invariant under
joint reordering, so the model enumerates `xs.dedup`. -/
def value_counts (xs : List Cell) : List (Cell × ℕ) :=
  xs.dedup.map (fun v => (v, xs.count v))

/-- Look a cell up in a counts series, `0` when absent (the `fill_value=0`
of `align`). -/
def lookupCount (d : List (Cell × ℕ)) (v : Cell) : ℕ :=
  ((d.find? (fun p => decide (p.1 = v))).map Prod.snd).getD 0

/-- The outer-join index of `align`: the union of the two count series'
indexes (pandas sorts the union where it can; again only the joint order
matters). -/
def alignIndex (a b : List (Cell × ℕ)) : List Cell :=
  (a.map Prod.fst ++ b.map Prod.fst).dedup

/-- One iteration of the loop in `BaseDPSynthesizer.score`: align the two
columns' value counts over the outer-join index with `fill_value=0` and take
the Jensen-Shannon distance of the two aligned count vectors. -/
noncomputable def column_distance (A B : DataFrame) (c : String) : ℝ :=
  let ca := value_counts (A.col c)
  let cb := value_counts (B.col c)
  let idx := alignIndex ca cb
  jensenshannon (idx.map (fun v => (lookupCount ca v : ℝ)))
    (idx.map (fun v => (lookupCount cb v : ℝ)))

/-- Insertion into the Python dict `column_distances` (insertion order kept,
a repeated key overwrites in place). -/
def dictInsert (d : List (String × ℝ)) (k : String) (x : ℝ) : List (String × ℝ) :=
  if d.any (fun p => decide (p.1 = k)) then
    d.map (fun p => if p.1 = k then (k, x) else p)
  else d ++ [(k, x)]

/-- The dict `column_distances` after the loop over `original_data.columns`. -/
noncomputable def column_distances (A B : DataFrame) : List (String × ℝ) :=
  A.columns.foldl (fun d c => dictInsert d c (column_distance A B c)) []

/-- `BaseDPSynthesizer.score`: `sum(column_distances.values()) /
len(original_data.columns)`. -/
noncomputable def score (A B : DataFrame) : ℝ :=
  ((column_distances A B).map Prod.snd).sum / A.columns.length

/-- `score` with `score_dict=True`: the average together with the per-column
dict. -/
noncomputable def score_with_dict (A B : DataFrame) : ℝ × List (String × ℝ) :=
  (score A B, column_distances A B)

/-- Python `set(xs) == set(ys)` for lists of strings. -/
def sameSetStr (xs ys : List String) : Bool :=
  xs.all (fun x => decide (x ∈ ys)) && ys.all (fun y => decide (y ∈ xs))

/-- Python `set(np.unique xs) == set(np.unique ys)` for lists of cells: the
two lists have the same elements. -/
def sameSetCell (xs ys : List Cell) : Bool :=
  xs.all (fun x => decide (x ∈ ys)) && ys.all (fun y => decide (y ∈ xs))

/-- The `fixed_data` argument of `_check_fixed_data`: a pandas Series (with
its name and values), a DataFrame, or any other object (the two `isinstance`
tests then both fail). -/
inductive FixedData where
  | series (name : String) (values : List Cell)
  | dataframe (df : DataFrame)
  | other

/-- `FixedSamplingMixin._check_fixed_data` for a fitted synthesizer with
fitted columns `cols` and model artifact `model`.  A Series is only checked
for its name being a fitted column; a DataFrame is checked for unseen
columns, for already covering every fitted column, and then each fixed
column's distinct values are asserted (in column order, stopping at the
first failure) to equal the distinct level values the model records for it.
Any other object is not checked at all.  The verbose print changes no
result and is not modelled. -/
def check_fixed_data (cols : List String) (model : Model) (fixed : FixedData) :
    Except PyError Unit :=
  match fixed with
  | .other => .ok ()
  | .series name _ =>
    if name ∈ cols then .ok ()
    else .error (.valueError "Columns in fixed data not seen in fit.")
  | .dataframe df =>
    if ¬ df.columns.all (fun c => decide (c ∈ cols)) then
      .error (.valueError "Columns in fixed data not seen in fit.")
    else if sameSetStr df.columns cols then
      .error (.valueError "Fixed data already contains all the columns that were seen in fit.")
    else
      match df.columns.find? (fun c => ! sameSetCell (model.levels c) (df.col c)) with
      | some c =>
        .error (.assertionError
          ("conditioning variable has different categories for column: " ++ c))
      | none => .ok ()

/-- Written to the spec's words, for comparison with the code's `score`: the
union of the categories observed in either dataset for a column (missing
values their own category). -/
def specCategories (xs ys : List Cell) : List Cell :=
  (xs ++ ys).dedup

/-- Written to the spec's words: the Jensen-Shannon distance between the two
value-count vectors aligned over the union of observed categories, unseen
categories counted 0. -/
noncomputable def specColumnDistance (A B : DataFrame) (c : String) : ℝ :=
  let cats := specCategories (A.col c) (B.col c)
  jensenshannon (cats.map (fun v => ((A.col c).count v : ℝ)))
    (cats.map (fun v => ((B.col c).count v : ℝ)))

/-- Written to the spec's words: the arithmetic mean of the per-column
distances over all columns of the original dataset. -/
noncomputable def specScore (A B : DataFrame) : ℝ :=
  (A.columns.map (specColumnDistance A B)).sum / A.columns.length

theorem rel_entr_self (a : ℝ) : rel_entr a a = 0 := by
  unfold rel_entr
  by_cases h : 0 < a
  · rw [if_pos h, div_self (ne_of_gt h), Real.log_one, mul_zero]
  · rw [if_neg h]

theorem jensenshannon_map {α : Type} (F G : α → ℝ) (l : List α) :
    jensenshannon (l.map F) (l.map G) =
      Real.sqrt
        (((l.map fun x =>
            rel_entr (F x / (l.map F).sum)
              ((F x / (l.map F).sum + G x / (l.map G).sum) / 2)).sum +
          (l.map fun x =>
            rel_entr (G x / (l.map G).sum)
              ((F x / (l.map F).sum + G x / (l.map G).sum) / 2)).sum) / 2) := by
  unfold jensenshannon
  simp only [List.map_map, Function.comp_def, List.zipWith_map, List.zipWith_same]

theorem jensenshannon_self (p : List ℝ) : jensenshannon p p = 0 := by
  have h := jensenshannon_map (fun x => x) (fun x => x) p
  simp only [List.map_id_fun', id] at h
  rw [h]
  have hz : ∀ f : ℝ → ℝ, (∀ x, f x = 0) → (p.map f).sum = 0 := by
    intro f hf
    apply List.sum_eq_zero
    intro x hx
    rcases List.mem_map.mp hx with ⟨a, _, rfl⟩
    exact hf a
  rw [hz _ (fun x => by rw [show (x / p.sum + x / p.sum) / 2 = x / p.sum by ring, rel_entr_self])]
  norm_num

theorem jensenshannon_comm (p q : List ℝ) : jensenshannon p q = jensenshannon q p := by
  simp only [jensenshannon]
  rw [List.zipWith_comm_of_comm (fun a b => (a + b) / 2) (fun a b => by ring)
    (q.map fun x => x / q.sum) (p.map fun x => x / p.sum)]
  rw [add_comm]

theorem jensenshannon_map_perm {α : Type} (F G : α → ℝ) {l l' : List α}
    (h : l.Perm l') :
    jensenshannon (l.map F) (l.map G) = jensenshannon (l'.map F) (l'.map G) := by
  rw [jensenshannon_map, jensenshannon_map]
  rw [(h.map F).sum_eq, (h.map G).sum_eq]
  rw [(h.map _).sum_eq, (h.map _).sum_eq]

theorem find_map_pair (g : Cell → ℕ) (ks : List Cell) (v : Cell) :
    (ks.map (fun u => (u, g u))).find? (fun p => decide (p.1 = v)) =
      if v ∈ ks then some (v, g v) else none := by
  induction ks with
  | nil => simp
  | cons a t ih =>
    by_cases hav : a = v
    · subst hav
      simp [List.find?]
    · have : (decide ((a, g a).1 = v)) = false := by simp [hav]
      simp only [List.map_cons, List.find?, this, ih]
      have hmem : (v ∈ a :: t) ↔ (v ∈ t) := by
        constructor
        · intro h
          rcases List.mem_cons.mp h with h | h
          · exact absurd h.symm hav
          · exact h
        · intro h
          exact List.mem_cons_of_mem _ h
      simp [hmem]

theorem lookupCount_value_counts (xs : List Cell) (v : Cell) :
    lookupCount (value_counts xs) v = xs.count v := by
  unfold lookupCount value_counts
  rw [find_map_pair]
  by_cases hv : v ∈ xs.dedup
  · simp [hv]
  · have hnx : v ∉ xs := fun h => hv (List.mem_dedup.mpr h)
    simp [hv, List.count_eq_zero.mpr hnx]

theorem value_counts_keys (xs : List Cell) :
    (value_counts xs).map Prod.fst = xs.dedup := by
  simp [value_counts, List.map_map, Function.comp_def]

theorem dedup_perm_of_same_mem {l l' : List Cell} (h : ∀ a, a ∈ l ↔ a ∈ l') :
    l.dedup.Perm l'.dedup :=
  (List.perm_ext_iff_of_nodup l.nodup_dedup l'.nodup_dedup).2
    (by intro a; rw [List.mem_dedup, List.mem_dedup]; exact h a)

theorem alignIndex_value_counts (xs ys : List Cell) :
    alignIndex (value_counts xs) (value_counts ys) = (xs.dedup ++ ys.dedup).dedup := by
  unfold alignIndex
  rw [value_counts_keys, value_counts_keys]

theorem column_distance_eq_spec (A B : DataFrame) (c : String) :
    column_distance A B c = specColumnDistance A B c := by
  simp only [column_distance, specColumnDistance, specCategories]
  rw [alignIndex_value_counts]
  have hA : (fun v => ((lookupCount (value_counts (A.col c)) v : ℕ) : ℝ)) =
      fun v => (((A.col c).count v : ℕ) : ℝ) :=
    funext fun v => by rw [lookupCount_value_counts]
  have hB : (fun v => ((lookupCount (value_counts (B.col c)) v : ℕ) : ℝ)) =
      fun v => (((B.col c).count v : ℕ) : ℝ) :=
    funext fun v => by rw [lookupCount_value_counts]
  rw [hA, hB]
  exact jensenshannon_map_perm _ _
    (dedup_perm_of_same_mem (by intro a; simp [List.mem_dedup]))

theorem specColumnDistance_symm (A B : DataFrame) (c : String) :
    specColumnDistance A B c = specColumnDistance B A c := by
  simp only [specColumnDistance, specCategories]
  rw [jensenshannon_map_perm _ _
    (@dedup_perm_of_same_mem (A.col c ++ B.col c) (B.col c ++ A.col c)
      (by intro a; simp; tauto))]
  exact jensenshannon_comm _ _

theorem dictInsert_of_fresh (d : List (String × ℝ)) (k : String) (x : ℝ)
    (h : ∀ p ∈ d, p.1 ≠ k) : dictInsert d k x = d ++ [(k, x)] := by
  unfold dictInsert
  have : d.any (fun p => decide (p.1 = k)) = false := by
    rw [List.any_eq_false]
    intro p hp
    simp [h p hp]
  simp [this]

theorem foldl_dictInsert_eq_append (f : String → ℝ) :
    ∀ (cs : List String) (d : List (String × ℝ)), cs.Nodup →
      (∀ c ∈ cs, ∀ p ∈ d, p.1 ≠ c) →
      cs.foldl (fun d c => dictInsert d c (f c)) d = d ++ cs.map (fun c => (c, f c)) := by
  intro cs
  induction cs with
  | nil => intro d _ _; simp
  | cons c t ih =>
    intro d hnd hdisj
    rw [List.foldl_cons,
      dictInsert_of_fresh d c (f c) (fun p hp => hdisj c (List.mem_cons_self c t) p hp),
      ih (d ++ [(c, f c)]) (List.Nodup.of_cons hnd) ?_]
    · simp
    · intro c' hc' p hp
      rcases List.mem_append.mp hp with h | h
      · exact hdisj c' (List.mem_cons_of_mem c hc') p h
      · have hpc : p = (c, f c) := by simpa using h
        rw [hpc]
        intro hcc'
        have hcc : c = c' := hcc'
        exact (List.nodup_cons.mp hnd).1 (hcc ▸ hc')

theorem column_distances_of_nodup (A B : DataFrame) (h : A.columns.Nodup) :
    column_distances A B = A.columns.map (fun c => (c, column_distance A B c)) := by
  unfold column_distances
  rw [foldl_dictInsert_eq_append _ A.columns [] h (by intro c _ p hp; simp at hp)]
  simp

theorem mem_foldl_dictInsert_snd (f : String → ℝ) :
    ∀ (cs : List String) (d : List (String × ℝ)),
      (∀ p ∈ d, p.2 = 0) → (∀ c ∈ cs, f c = 0) →
      ∀ p ∈ cs.foldl (fun d c => dictInsert d c (f c)) d, p.2 = 0 := by
  intro cs
  induction cs with
  | nil => intro d hd _ p hp; exact hd p hp
  | cons c t ih =>
    intro d hd hf p hp
    rw [List.foldl_cons] at hp
    refine ih (dictInsert d c (f c)) ?_ (fun c' hc' => hf c' (List.mem_cons_of_mem c hc')) p hp
    intro q hq
    unfold dictInsert at hq
    by_cases hany : d.any (fun p => decide (p.1 = c))
    · rw [if_pos hany] at hq
      rcases List.mem_map.mp hq with ⟨r, hr, hrq⟩
      by_cases hrc : r.1 = c
      · rw [if_pos hrc] at hrq
        rw [← hrq]
        exact hf c (List.mem_cons_self c t)
      · rw [if_neg hrc] at hrq
        rw [← hrq]
        exact hd r hr
    · rw [if_neg hany] at hq
      rcases List.mem_append.mp hq with h | h
      · exact hd q h
      · have : q = (c, f c) := by simpa using h
        rw [this]
        exact hf c (List.mem_cons_self c t)

/-- A concrete fitted model artifact for witnesses. -/
def modelA : Model := ⟨fun _ => [Cell.val "x"]⟩

/-- A concrete model artifact whose levels for column a are exactly the
single category m. -/
def modelB : Model := ⟨fun c => if c = "a" then [Cell.val "m"] else [Cell.val "u"]⟩

/-- A concrete synthesizer with no `model_` attribute. -/
def unfittedSynth : Synthesizer :=
  ⟨"MarginalSynthesizer", .real (.fin 1), true, [], 0, none⟩

/-- A concrete fitted synthesizer. -/
def fittedSynth : Synthesizer :=
  ⟨"MarginalSynthesizer", .real (.fin 1), true, ["a"], 2, some modelA⟩

/-- A concrete one-column dataset. -/
def dfA : DataFrame := ⟨[("a", [Cell.val "x", Cell.val "y"])]⟩

/-- A concrete two-column dataset. -/
def dfP : DataFrame := ⟨[("a", [Cell.val "x"]), ("b", [Cell.na])]⟩

/-- A concrete dataset with the same columns as `dfP` in the other order. -/
def dfQ : DataFrame := ⟨[("b", [Cell.val "z"]), ("a", [Cell.val "x", Cell.val "x"])]⟩

/-- Counterexample to claim C1 as stated: ten to the four hundredth power is
a strictly positive Python int, hence a numeric Real, yet epsilon validation
raises on it: the trailing float conversion overflows. -/
theorem check_epsilon_huge_int_raises :
    (PyFloat.fin 0).lt (.fin ((10 : ℚ) ^ 400)) = true ∧
    check_epsilon (.real (.fin ((10 : ℚ) ^ 400))) =
      .error (.overflowError "int too large to convert to float") := by
  have hpos : (0 : ℚ) < 10 ^ 400 := by positivity
  have hov : (PyFloat.fin ((10 : ℚ) ^ 400)).floatOverflows = true := by
    simp only [PyFloat.floatOverflows, decide_eq_true_eq]
    rw [abs_of_nonneg (le_of_lt hpos)]
    have h970 : (0 : ℚ) ≤ 2 ^ 970 := by positivity
    have h2 : (2 : ℚ) ^ 1024 ≤ 10 ^ 400 := by norm_num
    linarith
  constructor
  · simp [PyFloat.lt, hpos]
  · simp [check_epsilon, PyFloat.lt, PyFloat.eqv, hov,
      not_lt.mpr (le_of_lt hpos), ne_of_gt hpos]

/-- Claim C1 (amended): epsilon validation raises a TypeError on a
non-numeric value, a ValueError on a strictly negative numeric value, a
ValueError on a numeric value equal to zero, and raises nothing on a
strictly positive numeric value below the float-conversion overflow
boundary; a strictly positive value at or past the boundary (an int too
large for a double) makes the trailing float conversion raise
OverflowError. -/
theorem check_epsilon_cases :
    (∀ s, ∃ m, check_epsilon (.nonreal s) = .error (.typeError m)) ∧
    (∀ x, x.lt (.fin 0) = true → ∃ m, check_epsilon (.real x) = .error (.valueError m)) ∧
    (∀ x, x.eqv (.fin 0) = true → ∃ m, check_epsilon (.real x) = .error (.valueError m)) ∧
    (∀ x, (PyFloat.fin 0).lt x = true → x.floatOverflows = false →
      check_epsilon (.real x) = .ok ()) ∧
    (∀ x, (PyFloat.fin 0).lt x = true → x.floatOverflows = true →
      ∃ m, check_epsilon (.real x) = .error (.overflowError m)) := by
  refine ⟨fun s => ⟨_, rfl⟩, ?_, ?_, ?_, ?_⟩
  · intro x h
    exact ⟨"Epsilon must be non-negative", by simp [check_epsilon, h]⟩
  · intro x h
    cases x with
    | fin a =>
      have ha : a = 0 := by simpa [PyFloat.eqv] using h
      subst ha
      exact ⟨"Epsilon cannot be zero", by simp [check_epsilon, PyFloat.lt, PyFloat.eqv]⟩
    | inf => simp [PyFloat.eqv] at h
    | negInf => simp [PyFloat.eqv] at h
    | nan => simp [PyFloat.eqv] at h
  · intro x h hov
    cases x with
    | fin a =>
      have ha : 0 < a := by simpa [PyFloat.lt] using h
      simp [check_epsilon, PyFloat.lt, PyFloat.eqv, not_lt.mpr (le_of_lt ha),
        ne_of_gt ha, hov]
    | inf => rfl
    | negInf => simp [PyFloat.lt] at h
    | nan => simp [PyFloat.lt] at h
  · intro x h hov
    cases x with
    | fin a =>
      have ha : 0 < a := by simpa [PyFloat.lt] using h
      exact ⟨"int too large to convert to float",
        by simp [check_epsilon, PyFloat.lt, PyFloat.eqv, not_lt.mpr (le_of_lt ha),
          ne_of_gt ha, hov]⟩
    | inf => simp [PyFloat.floatOverflows] at hov
    | negInf => simp [PyFloat.lt] at h
    | nan => simp [PyFloat.lt] at h

/-- Witness for the amended C1 at concrete inputs: a string epsilon, minus
one, zero, one, and two to the eleven hundredth power. -/
theorem check_epsilon_cases_witness :
    (∃ m, check_epsilon (.nonreal "a string") = .error (.typeError m)) ∧
    (∃ m, check_epsilon (.real (.fin (-1))) = .error (.valueError m)) ∧
    (∃ m, check_epsilon (.real (.fin 0)) = .error (.valueError m)) ∧
    check_epsilon (.real (.fin 1)) = .ok () ∧
    (∃ m, check_epsilon (.real (.fin ((2 : ℚ) ^ 1100))) = .error (.overflowError m)) :=
  ⟨check_epsilon_cases.1 "a string",
   check_epsilon_cases.2.1 _ (by decide),
   check_epsilon_cases.2.2.1 _ (by decide),
   check_epsilon_cases.2.2.2.1 _ (by decide)
     (by
       simp only [PyFloat.floatOverflows, decide_eq_false_iff_not, not_le, abs_one]
       norm_num),
   check_epsilon_cases.2.2.2.2 _
     (by simp [PyFloat.lt])
     (by
       simp only [PyFloat.floatOverflows, decide_eq_true_eq]
       rw [abs_of_nonneg (by positivity : (0 : ℚ) ≤ 2 ^ 1100)]
       norm_num)⟩

/-- Counterexample to claim C8 as stated: positive infinity is accepted by
epsilon validation although it is not finite. -/
theorem check_epsilon_inf_passes :
    check_epsilon (.real .inf) = .ok () ∧ PyFloat.inf.isFinite = false :=
  ⟨rfl, rfl⟩

/-- Claim C8 (amended): every epsilon that passes validation is a numeric
real value that is neither negative nor equal to zero, and every finite
numeric value that passes is strictly positive; validation does not
guarantee finiteness (positive infinity and NaN also pass). -/
theorem check_epsilon_pass_characterization (v : PyVal)
    (h : check_epsilon v = .ok ()) :
    ∃ x, v = .real x ∧ x.lt (.fin 0) = false ∧ x.eqv (.fin 0) = false ∧
      ∀ q : ℚ, x = .fin q → 0 < q := by
  cases v with
  | nonreal s => simp [check_epsilon] at h
  | real x =>
    cases x with
    | fin q =>
      by_cases hq : q < 0
      · exfalso
        simp [check_epsilon, PyFloat.lt, hq] at h
      by_cases hq0 : q = 0
      · exfalso
        simp [check_epsilon, PyFloat.lt, PyFloat.eqv, hq, hq0] at h
      refine ⟨.fin q, rfl, by simp [PyFloat.lt, hq], by simp [PyFloat.eqv, hq0], ?_⟩
      intro q' hq'
      have hqq : q = q' := by
        injection hq'
      exact hqq ▸ lt_of_le_of_ne (not_lt.mp hq) (Ne.symm hq0)
    | inf =>
      exact ⟨.inf, rfl, rfl, rfl, fun q hq => absurd hq (by simp)⟩
    | negInf =>
      exfalso
      simp [check_epsilon, PyFloat.lt] at h
    | nan =>
      exact ⟨.nan, rfl, rfl, rfl, fun q hq => absurd hq (by simp)⟩

/-- Witness for the amended C8 at epsilon = 2. -/
theorem check_epsilon_pass_characterization_witness :
    ∃ x, PyVal.real (.fin 2) = .real x ∧ x.lt (.fin 0) = false ∧
      x.eqv (.fin 0) = false ∧ ∀ q : ℚ, x = .fin q → 0 < q :=
  check_epsilon_pass_characterization _ (by
    have hov : (PyFloat.fin 2).floatOverflows = false := by
      simp only [PyFloat.floatOverflows, decide_eq_false_iff_not, not_le]
      rw [abs_of_nonneg (by norm_num : (0 : ℚ) ≤ 2)]
      norm_num
    simp [check_epsilon, PyFloat.lt, PyFloat.eqv, hov,
      show ¬((2 : ℚ) < 0) by norm_num, show (2 : ℚ) ≠ 0 by norm_num])

/-- Claim C2: after input normalization, `columns_` is the list of the
dataset's column labels cast to strings in their original order, and
`n_records_fit_` is the dataset's row count. -/
theorem check_input_data_records (self : Synthesizer) (data : RawData) :
    (check_input_data self data).1.columns_ = data.labels.map RawLabel.toStr ∧
    (check_input_data self data).1.n_records_fit_ = data.rows.length := by
  refine ⟨rfl, ?_⟩
  simp [check_input_data]

/-- Claim C7: without a `model_` attribute the fitted-state check raises a
NotFittedError whose message contains the concrete type name; with one it
raises nothing. -/
theorem check_is_fitted_spec (self : Synthesizer) :
    (self.model_ = none →
      ∃ pre post,
        check_is_fitted self = .error (.notFittedError (pre ++ self.className ++ post))) ∧
    (∀ m, self.model_ = some m → check_is_fitted self = .ok ()) := by
  constructor
  · intro h
    refine ⟨"This ",
      " instance is not fitted yet. Call " ++
        "fit with appropriate arguments before using this synthesizer.", ?_⟩
    unfold check_is_fitted
    rw [h]
    simp [notFittedMessage, String.append_assoc]
  · intro m h
    unfold check_is_fitted
    rw [h]

/-- Witness for C7: a concrete unfitted instance errors with its type name
in the message, a concrete fitted instance passes. -/
theorem check_is_fitted_spec_witness :
    (∃ pre post,
      check_is_fitted unfittedSynth =
        .error (.notFittedError (pre ++ unfittedSynth.className ++ post))) ∧
    check_is_fitted fittedSynth = .ok () :=
  ⟨(check_is_fitted_spec unfittedSynth).1 rfl,
   (check_is_fitted_spec fittedSynth).2 modelA rfl⟩

theorem sameSetStr_mem {xs ys : List String} (h : sameSetStr xs ys = true) :
    ∀ c, c ∈ xs ↔ c ∈ ys := by
  unfold sameSetStr at h
  rw [Bool.and_eq_true, List.all_eq_true, List.all_eq_true] at h
  intro c
  constructor
  · intro hc
    simpa using h.1 c hc
  · intro hc
    simpa using h.2 c hc

/-- Claim C3: scoring a dataset against itself yields per-column distance 0
for every column and aggregate score 0. -/
theorem score_self (A : DataFrame) (_hlen : 0 < A.columns.length) :
    (∀ c ∈ A.columns, column_distance A A c = 0) ∧ score A A = 0 := by
  have hcol : ∀ c ∈ A.columns, column_distance A A c = 0 := by
    intro c _
    unfold column_distance
    exact jensenshannon_self _
  refine ⟨hcol, ?_⟩
  unfold score
  have hz : ∀ p ∈ column_distances A A, p.2 = 0 := by
    unfold column_distances
    exact mem_foldl_dictInsert_snd (fun c => column_distance A A c) A.columns []
      (fun p hp => absurd hp (List.not_mem_nil p)) hcol
  have hsum : ((column_distances A A).map Prod.snd).sum = 0 := by
    apply List.sum_eq_zero
    intro x hx
    rcases List.mem_map.mp hx with ⟨p, hp, rfl⟩
    exact hz p hp
  rw [hsum, zero_div]

/-- Witness for C3 at a concrete one-column dataset. -/
theorem score_self_witness :
    (∀ c ∈ dfA.columns, column_distance dfA dfA c = 0) ∧ score dfA dfA = 0 :=
  score_self dfA (by decide)

/-- Claim C4: on two datasets with identical column sets (and well-formed,
pairwise-distinct labels) scoring is symmetric, in the aggregate and per
column. -/
theorem score_symm (A B : DataFrame) (hA : A.columns.Nodup) (hB : B.columns.Nodup)
    (h : sameSetStr A.columns B.columns = true) :
    score A B = score B A ∧
    ∀ c ∈ A.columns, column_distance A B c = column_distance B A c := by
  have hsym : ∀ c, column_distance A B c = column_distance B A c := by
    intro c
    rw [column_distance_eq_spec, column_distance_eq_spec, specColumnDistance_symm]
  refine ⟨?_, fun c _ => hsym c⟩
  unfold score
  rw [column_distances_of_nodup A B hA, column_distances_of_nodup B A hB,
    List.map_map, List.map_map]
  have hperm : A.columns.Perm B.columns :=
    (List.perm_ext_iff_of_nodup hA hB).2 (sameSetStr_mem h)
  have hc1 : (Prod.snd ∘ fun c => (c, column_distance A B c)) =
      fun c => column_distance A B c := rfl
  have hc2 : (Prod.snd ∘ fun c => (c, column_distance B A c)) =
      fun c => column_distance B A c := rfl
  rw [hc1, hc2]
  have hfun : (fun c => column_distance B A c) = fun c => column_distance A B c :=
    funext fun c => (hsym c).symm
  rw [hfun, (hperm.map fun c => column_distance A B c).sum_eq, hperm.length_eq]

/-- Witness for C4 at two concrete datasets with the same columns in
opposite orders. -/
theorem score_symm_witness :
    score dfP dfQ = score dfQ dfP ∧
    ∀ c ∈ dfP.columns, column_distance dfP dfQ c = column_distance dfQ dfP c :=
  score_symm dfP dfQ (by decide) (by decide) (by decide)

/-- Claim C5: the scoring loop computes each column's distance as the
Jensen-Shannon distance of the two value-count vectors aligned over the
union of observed categories (missing values their own category, unseen
categories counted 0), the aggregate is the arithmetic mean over the
original dataset's columns, and with `score_dict` the per-column mapping is
returned alongside. -/
theorem score_eq_spec (A B : DataFrame) (hA : A.columns.Nodup) :
    score A B = specScore A B ∧
    score_with_dict A B =
      (specScore A B, A.columns.map fun c => (c, specColumnDistance A B c)) := by
  have h1 : score A B = specScore A B := by
    unfold score specScore
    rw [column_distances_of_nodup A B hA, List.map_map]
    have hc : (Prod.snd ∘ fun c => (c, column_distance A B c)) =
        fun c => specColumnDistance A B c := by
      funext c
      exact column_distance_eq_spec A B c
    rw [hc]
  refine ⟨h1, ?_⟩
  unfold score_with_dict
  rw [h1, column_distances_of_nodup A B hA]
  have hp : (fun c => (c, column_distance A B c)) =
      fun c => (c, specColumnDistance A B c) :=
    funext fun c => by rw [column_distance_eq_spec]
  rw [hp]

/-- Witness for C5 at two concrete datasets. -/
theorem score_eq_spec_witness :
    score dfP dfQ = specScore dfP dfQ ∧
    score_with_dict dfP dfQ =
      (specScore dfP dfQ, dfP.columns.map fun c => (c, specColumnDistance dfP dfQ c)) :=
  score_eq_spec dfP dfQ (by decide)

/-- Counterexample to claim C6 as stated: on a synthesizer fitted with the
single column a, a pandas Series named a covers the full fitted column set,
yet fixed-data validation raises nothing. -/
theorem check_fixed_data_series_full_passes :
    check_fixed_data ["a"] modelA (.series "a" []) = .ok () ∧
    sameSetStr ["a"] ["a"] = true :=
  ⟨rfl, rfl⟩

/-- Claim C6 (amended): for DataFrame fixed data, validation raises a
ValueError when any column is not among the fitted columns and a ValueError
when its column set equals the full fitted column set; for Series fixed
data only the name-seen-in-fit ValueError applies, so a Series is never
rejected as already complete. -/
theorem check_fixed_data_value_errors (cols : List String) (model : Model) :
    (∀ df : DataFrame, (∃ c ∈ df.columns, c ∉ cols) →
      ∃ m, check_fixed_data cols model (.dataframe df) = .error (.valueError m)) ∧
    (∀ df : DataFrame, sameSetStr df.columns cols = true →
      ∃ m, check_fixed_data cols model (.dataframe df) = .error (.valueError m)) ∧
    (∀ n vs, n ∉ cols →
      ∃ m, check_fixed_data cols model (.series n vs) = .error (.valueError m)) := by
  refine ⟨?_, ?_, ?_⟩
  · rintro df ⟨c, hc, hnc⟩
    have hall : (df.columns.all fun c => decide (c ∈ cols)) = false := by
      rw [List.all_eq_false]
      exact ⟨c, hc, by simpa using hnc⟩
    exact ⟨"Columns in fixed data not seen in fit.", by simp [check_fixed_data, hall]⟩
  · intro df hss
    have hall : (df.columns.all fun c => decide (c ∈ cols)) = true := by
      rw [List.all_eq_true]
      intro c hc
      simpa using (sameSetStr_mem hss c).1 hc
    exact ⟨"Fixed data already contains all the columns that were seen in fit.",
      by simp [check_fixed_data, hall, hss]⟩
  · intro n vs hn
    exact ⟨"Columns in fixed data not seen in fit.", by simp [check_fixed_data, hn]⟩

/-- Witness for the amended C6 at concrete inputs: a DataFrame with an
unseen column, a DataFrame covering all fitted columns, a Series with an
unseen name. -/
theorem check_fixed_data_value_errors_witness :
    (∃ m, check_fixed_data ["a", "b"] modelA (.dataframe ⟨[("z", [])]⟩) =
      .error (.valueError m)) ∧
    (∃ m, check_fixed_data ["a", "b"] modelA (.dataframe ⟨[("a", []), ("b", [])]⟩) =
      .error (.valueError m)) ∧
    (∃ m, check_fixed_data ["a", "b"] modelA (.series "z" []) =
      .error (.valueError m)) :=
  ⟨(check_fixed_data_value_errors _ _).1 _ ⟨"z", by decide, by decide⟩,
   (check_fixed_data_value_errors _ _).2.1 _ (by decide),
   (check_fixed_data_value_errors _ _).2.2 _ [] (by decide)⟩

/-- Claim C9: once a DataFrame of fixed data has passed both ValueError
checks, validation fails with an assertion error (not a ValueError) naming
the first fixed column whose set of distinct values differs from the
categories the fitted model records for it, and passes when every fixed
column's distinct values match. -/
theorem check_fixed_data_assertion (cols : List String) (model : Model)
    (df : DataFrame)
    (h1 : (df.columns.all fun c => decide (c ∈ cols)) = true)
    (h2 : sameSetStr df.columns cols = false) :
    (∀ c₀, (df.columns.find? fun c => ! sameSetCell (model.levels c) (df.col c)) = some c₀ →
      check_fixed_data cols model (.dataframe df) =
        .error (.assertionError
          ("conditioning variable has different categories for column: " ++ c₀))) ∧
    ((df.columns.find? fun c => ! sameSetCell (model.levels c) (df.col c)) = none →
      check_fixed_data cols model (.dataframe df) = .ok ()) := by
  constructor
  · intro c₀ hc₀
    simp [check_fixed_data, h1, h2, hc₀]
  · intro hnone
    simp [check_fixed_data, h1, h2, hnone]

/-- Witness for C9: with a model recording category m for column a, fixed
data with exactly that category passes and fixed data with category w fails
the assertion on column a. -/
theorem check_fixed_data_assertion_witness :
    check_fixed_data ["a", "b"] modelB
      (.dataframe ⟨[("a", [Cell.val "m", Cell.val "m"])]⟩) = .ok () ∧
    check_fixed_data ["a", "b"] modelB
      (.dataframe ⟨[("a", [Cell.val "w"])]⟩) =
        .error (.assertionError
          ("conditioning variable has different categories for column: " ++ "a")) :=
  ⟨(check_fixed_data_assertion ["a", "b"] modelB _ (by decide) (by decide)).2 (by decide),
   (check_fixed_data_assertion ["a", "b"] modelB _ (by decide) (by decide)).1 "a" (by decide)⟩

/-- Claim C10: fixed-data validation is type-dispatched: anything that is
neither a Series nor a DataFrame passes unchecked; a Series is subject only
to the name-seen-in-fit check, so a single-named Series covering the whole
fitted column set passes. -/
theorem check_fixed_data_dispatch (cols : List String) (model : Model) :
    check_fixed_data cols model .other = .ok () ∧
    (∀ n vs, check_fixed_data cols model (.series n vs) =
      if n ∈ cols then .ok ()
      else .error (.valueError "Columns in fixed data not seen in fit.")) ∧
    (∀ n vs, sameSetStr [n] cols = true →
      check_fixed_data cols model (.series n vs) = .ok ()) := by
  refine ⟨rfl, fun n vs => rfl, ?_⟩
  intro n vs hn
  have hmem : n ∈ cols := by
    simpa using ((sameSetStr_mem hn) n).1 (by simp)
  simp [check_fixed_data, hmem]

/-- Witness for C10: on a synthesizer fitted with the single column a, a
non-Series non-DataFrame object passes unchecked and a Series named a,
covering every fitted column, passes. -/
theorem check_fixed_data_dispatch_witness :
    check_fixed_data ["a"] modelA .other = .ok () ∧
    check_fixed_data ["a"] modelA (.series "a" [Cell.val "v"]) = .ok () :=
  ⟨(check_fixed_data_dispatch ["a"] modelA).1,
   (check_fixed_data_dispatch ["a"] modelA).2.2 "a" [Cell.val "v"] (by decide)⟩
